import Mathlib

/-
Shallow embedding of src/redirect_server.py (SmartLinks redirect and
analytics backend).  The SQLite-backed state (tables owners, links, clicks)
is modelled as lists of rows inside an explicit DB value threaded through
each operation.  SQLite row order is insertion order, SELECT returns the
first matching row for single-row lookups, and ORDER BY ts is modelled by
an insertion sort on the ts string.  HTTPException responses are modelled
by the HErr sum type.
-/

namespace SmartLinks

/-- Checks that the second character list starts with the first one. -/
def charsStartWith : List Char → List Char → Bool
  | [], _ => true
  | _ :: _, [] => false
  | a :: as, b :: bs => a == b && charsStartWith as bs

/-- Substring membership on character lists, mirroring the Python
expression t in u on strings. -/
def containsSub (needle : List Char) : List Char → Bool
  | [] => charsStartWith needle []
  | h :: t => charsStartWith needle (h :: t) || containsSub needle t

/-- Substring membership on strings: strIn t u mirrors Python t in u. -/
def strIn (needle hay : String) : Bool := containsSub needle.toList hay.toList

/-- ASCII lowercasing, character by character; mirrors the Python lower()
call on the ASCII signature and user-agent strings the server compares. -/
def strLower (s : String) : String := String.mk (s.toList.map Char.toLower)

/-- Truthiness-based or of Python on strings: the empty string is falsy, so
a or b evaluates to b exactly when a is empty. -/
def pyOr (a b : String) : String := if a = "" then b else a

/-- Row of the owners table: owner_key (unique), plan (free or pro, default
free), created_at.  The autoincrement id column is not observable by any
query the server issues and is omitted. -/
structure Owner where
  owner_key : String
  plan : String
  created_at : String
  deriving DecidableEq, Repr

/-- Row of the links table: original_url, short_code (unique), created_at,
owner_key.  The autoincrement id only fixes the ORDER BY id DESC order of
list_links, which is the reverse of list insertion order here. -/
structure Link where
  original_url : String
  short_code : String
  created_at : String
  owner_key : String
  deriving DecidableEq, Repr

/-- Row of the clicks table, in the column order of the INSERT in go:
short_code, ts, ip, user_agent, device, city, country.  The go handler
always writes NULL city and country, modelled as Option String. -/
structure Click where
  short_code : String
  ts : String
  ip : String
  user_agent : String
  device : String
  city : Option String
  country : Option String
  deriving DecidableEq, Repr

/-- Whole persisted state: the three SQLite tables as row lists in
insertion order. -/
structure DB where
  owners : List Owner
  links : List Link
  clicks : List Click
  deriving DecidableEq, Repr

/-- Failure signals of the endpoints.  QuotaExceeded is the 402 of
create_link, NotFound the 404 of go, MissingToken the 400 for a missing
X-Owner-Token header.  AllocExhausted is a model artifact only: it marks
the case where the explicit candidate stream given to make_code runs out,
which corresponds to nontermination of the unbounded Python retry loop and
never to an HTTP response. -/
inductive HErr where
  | QuotaExceeded
  | NotFound
  | MissingToken
  | AllocExhausted
  deriving DecidableEq, Repr

instance exceptDecEq {ε α : Type} [DecidableEq ε] [DecidableEq α] :
    DecidableEq (Except ε α)
  | .error e, .error f =>
    if h : e = f then .isTrue (by rw [h])
    else .isFalse (fun c => by cases c; exact h rfl)
  | .error _, .ok _ => .isFalse (fun c => by cases c)
  | .ok _, .error _ => .isFalse (fun c => by cases c)
  | .ok a, .ok b =>
    if h : a = b then .isTrue (by rw [h])
    else .isFalse (fun c => by cases c; exact h rfl)

/-- FREE_LIMIT with its default value 3 (int(os.getenv(..., "3"))). -/
def FREE_LIMIT : Nat := 3

/-- CODE_LEN = 5. -/
def CODE_LEN : Nat := 5

/-- Membership in ALPHABET = string.ascii_letters + string.digits, i.e.
ASCII letters and digits. -/
def inAlphabet (ch : Char) : Bool := ch.isAlpha || ch.isDigit

/-- Tablet signature list of classify_device, in source order. -/
def TABLET_SIGS : List String := ["ipad", "tablet", "kindle", "silk/"]

/-- Mobile signature list of classify_device, in source order. -/
def MOBILE_SIGS : List String :=
  ["iphone", "android", "mobile", "ipod", "iemobile", "opera mini", "fbav",
   "instagram", "tiktok", "micromessenger", "pinterest", "line"]

/-- classify_device from redirect_server.py: lowercase the user agent
(Python ua or "" is the identity on the string argument), return tablet if
any tablet signature occurs, else mobile if any mobile signature occurs,
else desktop.  The function is total and has no bot or unknown branch. -/
def classify_device (ua : String) : String :=
  let u := strLower ua
  if TABLET_SIGS.any (fun t => strIn t u) then "tablet"
  else if MOBILE_SIGS.any (fun t => strIn t u) then "mobile"
  else "desktop"

/-- SELECT ... FROM owners WHERE owner_key=? (first matching row). -/
def findOwner (db : DB) (k : String) : Option Owner :=
  db.owners.find? (fun o => o.owner_key == k)

/-- ensure_owner: insert an owners row with plan free if the key is
absent. -/
def ensure_owner (db : DB) (k now : String) : DB :=
  match findOwner db k with
  | some _ => db
  | none => { db with owners := db.owners ++ [⟨k, "free", now⟩] }

/-- owner_plan: ensure_owner, then SELECT plan, defaulting to free when no
row is found. -/
def owner_plan (db : DB) (k now : String) : DB × String :=
  let db1 := ensure_owner db k now
  (db1,
    match findOwner db1 k with
    | some o => o.plan
    | none => "free")

/-- Specification-side reading of the plan of an owner key on a fixed
state: the stored plan if a row exists, free otherwise.  Used to state
properties; the executable path is owner_plan. -/
def effectivePlan (db : DB) (k : String) : String :=
  match findOwner db k with
  | some o => o.plan
  | none => "free"

/-- SELECT COUNT(*) FROM links WHERE owner_key=?. -/
def countLinks (db : DB) (k : String) : Nat :=
  (db.links.filter (fun l => l.owner_key == k)).length

/-- Absence test of a candidate code in the links table: the SELECT 1 FROM
links WHERE short_code=? probe of make_code finds no row. -/
def codeFree (links : List Link) (code : String) : Bool :=
  links.all (fun l => l.short_code != code)

/-- make_code: the Python loop draws successive random 5-character
candidates over ALPHABET and returns the first one not yet stored.  The
randomness is modelled by an explicit stream of candidates; an exhausted
stream (none) corresponds to the loop never finding a free code. -/
def make_code (links : List Link) : List String → Option String
  | [] => none
  | cd :: rest => if codeFree links cd then some cd else make_code links rest

/-- create_link (POST /api/links): 400 without an owner token, owner key
tok:,  ensure_owner, owner_plan, quota gate for non-pro plans against
FREE_LIMIT, then make_code and INSERT of the new links row.  The returned
state also reflects the committed ensure_owner insert on the error
paths. -/
def create_link (db : DB) (tok : Option String) (url : String)
    (cands : List String) (now : String) : DB × Except HErr Link :=
  match tok with
  | none => (db, Except.error HErr.MissingToken)
  | some t =>
    let owner := "tok:" ++ t
    let db1 := ensure_owner db owner now
    let pr := owner_plan db1 owner now
    let db2 := pr.1
    let plan := pr.2
    if plan ≠ "pro" ∧ FREE_LIMIT ≤ countLinks db2 owner then
      (db2, Except.error HErr.QuotaExceeded)
    else
      match make_code db2.links cands with
      | none => (db2, Except.error HErr.AllocExhausted)
      | some code =>
        ({ db2 with links := db2.links ++ [⟨url, code, now, owner⟩] },
         Except.ok ⟨url, code, now, owner⟩)

/-- Incoming request data used by the go handler: the user-agent header,
the x-forwarded-for header (None when absent), and request.client.host
(None when there is no client address). -/
structure Req where
  user_agent : Option String
  x_forwarded_for : Option String
  client_host : Option String
  deriving DecidableEq, Repr

/-- SELECT ... FROM links WHERE short_code=? (first matching row). -/
def findLink (db : DB) (code : String) : Option Link :=
  db.links.find? (fun l => l.short_code == code)

/-- go (GET /short_code): look the code up, 404 when absent, otherwise
classify the device, compute ip_raw as headers.get(x-forwarded-for) or
(request.client.host or ""), append the clicks row and redirect to the
stored destination (modelled as ok dest). -/
def go (db : DB) (short_code : String) (req : Req) (now : String) :
    DB × Except HErr String :=
  match findLink db short_code with
  | none => (db, Except.error HErr.NotFound)
  | some row =>
    let dest := row.original_url
    let ua := req.user_agent.getD ""
    let dev := classify_device ua
    let ip_raw := pyOr (req.x_forwarded_for.getD "")
        (pyOr (req.client_host.getD "") "")
    ({ db with clicks := db.clicks ++ [⟨short_code, now, ip_raw, ua, dev, none, none⟩] },
     Except.ok dest)

/-- Strict lexicographic order on character lists, mirroring the bytewise
TEXT comparison SQLite applies in ORDER BY ts. -/
def charListLt : List Char → List Char → Bool
  | [], [] => false
  | [], _ :: _ => true
  | _ :: _, [] => false
  | a :: as, b :: bs => Nat.blt a.toNat b.toNat || (a == b && charListLt as bs)

/-- Strict order on timestamp strings. -/
def tsLt (a b : String) : Bool := charListLt a.toList b.toList

/-- Insertion step of the ORDER BY ts sort. -/
def insertByTs (cl : Click) : List Click → List Click
  | [] => [cl]
  | x :: xs => if tsLt x.ts cl.ts then x :: insertByTs cl xs else cl :: x :: xs

/-- ORDER BY ts as an insertion sort on the ts string (SQLite compares TEXT
bytewise; the tie order among equal timestamps is unspecified there and
immaterial to the stated properties). -/
def orderByTs : List Click → List Click
  | [] => []
  | x :: xs => insertByTs x (orderByTs xs)

/-- clicks_for: SELECT ... FROM clicks WHERE short_code=? ORDER BY ts.  The
model keeps whole rows; the Python projections select column subsets of
these same rows. -/
def clicks_for (db : DB) (short_code : String) : List Click :=
  orderByTs (db.clicks.filter (fun cl => cl.short_code == short_code))

/-- Stats fields of stats_bundle used by the reports.  The day-of-week
histogram and the pretty-printed Pacific timestamps depend on datetime
parsing and timezone conversion and are outside this embedding; no stated
claim mentions them. -/
structure Stats where
  total : Nat
  unique_visitors : Nat
  mobile : Nat
  desktop : Nat
  tablet : Nat
  first_ts : Option String
  last_ts : Option String
  deriving DecidableEq, Repr

/-- Count of distinct strings in a list, mirroring the Python set
comprehension over the ip column. -/
def distinctCount (l : List String) : Nat :=
  (l.foldl (fun acc s => if s ∈ acc then acc else acc ++ [s]) []).length

/-- Device bucket count of stats_bundle: Counter of (device or "unknown")
looked up at one device name. -/
def devCount (rows : List Click) (d : String) : Nat :=
  (rows.filter (fun r => pyOr r.device "unknown" == d)).length

/-- stats_bundle: total row count, distinct non-empty ips, device buckets,
and first and last ts of the ORDER BY ts row list. -/
def stats_bundle (db : DB) (short_code : String) : Stats :=
  let rows := clicks_for db short_code
  { total := rows.length
    unique_visitors := distinctCount ((rows.filter (fun r => r.ip != "")).map Click.ip)
    mobile := devCount rows "mobile"
    desktop := devCount rows "desktop"
    tablet := devCount rows "tablet"
    first_ts := rows.head?.map Click.ts
    last_ts := rows.getLast?.map Click.ts }

/-- Header line written by report_csv (without its trailing newline). -/
def csvHeaderLine : String := "timestamp,ip,user_agent,device,city,country"

/-- Python str(x) if x is not None else "" on a nullable text column. -/
def csvCell (x : Option String) : String :=
  match x with
  | some s => s
  | none => ""

/-- One output line of report_csv: the selected columns ts, ip, user_agent,
device, city, country joined by bare commas, with no quoting and no
escaping. -/
def csv_row (cl : Click) : String :=
  String.intercalate ","
    [cl.ts, cl.ip, cl.user_agent, cl.device, csvCell cl.city, csvCell cl.country]

/-- report_csv (GET /api/report/short_code/csv): header line plus one line
per matching clicks row.  The handler performs no links lookup and raises
no HTTPException, so the result is always ok. -/
def report_csv (db : DB) (short_code : String) : Except HErr String :=
  Except.ok (csvHeaderLine ++ "\n" ++
    String.join ((clicks_for db short_code).map (fun cl => csv_row cl ++ "\n")))

/-- Count of comma-separated fields of one emitted line: one more than the
number of comma characters, since report_csv neither quotes nor escapes. -/
def numFields (s : String) : Nat :=
  (s.toList.filter (fun ch => ch == ',')).length + 1

/-- Fresh state with all three tables empty. -/
def emptyDB : DB := ⟨[], [], []⟩

/-- State holding one registered link with code abc01, used by the concrete
scenarios. -/
def dbOneLink : DB :=
  ⟨[], [⟨"https://listing.example/home", "abc01", "t0", "tok:o1"⟩], []⟩

/-- Request with a given user-agent header, no x-forwarded-for header and a
fixed peer address. -/
def reqOf (ua : String) : Req := ⟨some ua, none, some "198.51.100.7"⟩

/-- Scenario A, step 1: first create_link call of owner token o1. -/
def stepA1 : DB × Except HErr Link :=
  create_link emptyDB (some "o1") "https://a.example/1" ["aaaa1"] "t1"

/-- Scenario A, step 2. -/
def stepA2 : DB × Except HErr Link :=
  create_link stepA1.1 (some "o1") "https://a.example/2" ["aaaa2"] "t2"

/-- Scenario A, step 3. -/
def stepA3 : DB × Except HErr Link :=
  create_link stepA2.1 (some "o1") "https://a.example/3" ["aaaa3"] "t3"

/-- Scenario A, step 4: the attempt beyond the free cap. -/
def stepA4 : DB × Except HErr Link :=
  create_link stepA3.1 (some "o1") "https://a.example/4" ["aaaa4"] "t4"

/-- Scenario C, click 1: an iPhone user agent. -/
def goC4_1 : DB × Except HErr String :=
  go dbOneLink "abc01" (reqOf "Mozilla/5.0 iPhone Safari") "t1"

/-- Scenario C, click 2: a second iPhone user agent. -/
def goC4_2 : DB × Except HErr String :=
  go goC4_1.1 "abc01" (reqOf "Mozilla/5.0 iPhone CriOS") "t2"

/-- Scenario C, click 3: an Android Mobile user agent. -/
def goC4_3 : DB × Except HErr String :=
  go goC4_2.1 "abc01" (reqOf "Mozilla/5.0 Android Mobile Chrome") "t3"

/-- Scenario C, click 4: a desktop-style user agent. -/
def goC4_4 : DB × Except HErr String :=
  go goC4_3.1 "abc01" (reqOf "Mozilla/5.0 Windows Chrome") "t4"

/-- Scenario C, click 5: a second desktop-style user agent. -/
def goC4_5 : DB × Except HErr String :=
  go goC4_4.1 "abc01" (reqOf "Mozilla/5.0 Mac Safari") "t5"

/-- Request whose x-forwarded-for header carries a two-address chain. -/
def reqC7 : Req :=
  ⟨some "Mozilla/5.0 Windows Chrome", some "1.2.3.4, 5.6.7.8", some "10.0.0.9"⟩

/-- User agent of 513 characters, one past the 512-character bound named by
the specification. -/
def uaLong : String := String.mk (List.replicate 513 'a')

/-- Request carrying the 513-character user agent. -/
def reqC8 : Req := ⟨some uaLong, none, some "10.0.0.9"⟩

/-- Click row whose user_agent field itself contains a comma. -/
def clC10 : Click :=
  ⟨"c1", "t1", "203.0.113.5", "Mozilla/5.0 (X11, Linux x86_64) Gecko",
   "desktop", none, none⟩

/-- Helper: find? skips a prefix in which nothing matches. -/
theorem find?_append_of_none {α : Type} {p : α → Bool} {l1 l2 : List α}
    (h : l1.find? p = none) : (l1 ++ l2).find? p = l2.find? p := by
  induction l1 with
  | nil => rfl
  | cons a as ih =>
    rw [List.cons_append]
    cases hp : p a with
    | true =>
      rw [List.find?_cons_of_pos _ hp] at h
      exact absurd h (by simp)
    | false =>
      rw [List.find?_cons_of_neg _ (by simp [hp])] at h
      rw [List.find?_cons_of_neg _ (by simp [hp])]
      exact ih h

/-- Helper: ensure_owner does not touch the links table. -/
theorem ensure_owner_links (db : DB) (k now : String) :
    (ensure_owner db k now).links = db.links := by
  unfold ensure_owner
  split <;> rfl

/-- Helper: ensure_owner does not touch the clicks table. -/
theorem ensure_owner_clicks (db : DB) (k now : String) :
    (ensure_owner db k now).clicks = db.clicks := by
  unfold ensure_owner
  split <;> rfl

/-- Helper: after ensure_owner, a row for the key exists and its plan is
the effective plan the key had before the call. -/
theorem findOwner_ensure (db : DB) (k now : String) :
    ∃ o, findOwner (ensure_owner db k now) k = some o ∧
      o.plan = effectivePlan db k := by
  cases h : findOwner db k with
  | some o =>
    refine ⟨o, ?_, ?_⟩
    · simp [ensure_owner, h]
    · simp [effectivePlan, h]
  | none =>
    refine ⟨⟨k, "free", now⟩, ?_, ?_⟩
    · have : findOwner { db with owners := db.owners ++ [⟨k, "free", now⟩] } k =
          some ⟨k, "free", now⟩ := by
        unfold findOwner at h ⊢
        rw [find?_append_of_none h]
        simp
      simpa [ensure_owner, h] using this
    · simp [effectivePlan, h]

/-- Helper: ensure_owner is idempotent in the state. -/
theorem ensure_owner_idem (db : DB) (k now now2 : String) :
    ensure_owner (ensure_owner db k now) k now2 = ensure_owner db k now := by
  obtain ⟨o, ho, _⟩ := findOwner_ensure db k now
  rw [ensure_owner.eq_def]
  simp only [ho]

/-- Helper: the state component of owner_plan is the ensure_owner state. -/
theorem owner_plan_fst (db : DB) (k now : String) :
    (owner_plan db k now).1 = ensure_owner db k now := rfl

/-- Helper: the plan component of owner_plan is the effective plan. -/
theorem owner_plan_snd (db : DB) (k now : String) :
    (owner_plan db k now).2 = effectivePlan db k := by
  obtain ⟨o, ho, hp⟩ := findOwner_ensure db k now
  unfold owner_plan
  simp only [ho]
  exact hp

/-- Helper: ensure_owner does not change the effective plan of the key. -/
theorem effectivePlan_ensure (db : DB) (k now : String) :
    effectivePlan (ensure_owner db k now) k = effectivePlan db k := by
  obtain ⟨o, ho, hp⟩ := findOwner_ensure db k now
  unfold effectivePlan
  rw [ho]
  exact hp

/-- Helper: countLinks only reads the links table. -/
theorem countLinks_ensure (db : DB) (k now k2 : String) :
    countLinks (ensure_owner db k now) k2 = countLinks db k2 := by
  unfold countLinks
  rw [ensure_owner_links]

/-- Helper: characterization of create_link with an owner token, with the
double ensure_owner of the source collapsed by idempotence. -/
theorem create_link_eq (db : DB) (t url now : String) (cands : List String) :
    create_link db (some t) url cands now =
      if effectivePlan db ("tok:" ++ t) ≠ "pro" ∧
          FREE_LIMIT ≤ countLinks db ("tok:" ++ t) then
        (ensure_owner db ("tok:" ++ t) now, Except.error HErr.QuotaExceeded)
      else
        match make_code db.links cands with
        | none => (ensure_owner db ("tok:" ++ t) now, Except.error HErr.AllocExhausted)
        | some code =>
          ({ ensure_owner db ("tok:" ++ t) now with
              links := (ensure_owner db ("tok:" ++ t) now).links ++
                [⟨url, code, now, "tok:" ++ t⟩] },
           Except.ok ⟨url, code, now, "tok:" ++ t⟩) := by
  unfold create_link
  simp only [owner_plan_fst, owner_plan_snd, ensure_owner_idem,
    effectivePlan_ensure, countLinks_ensure, ensure_owner_links]

/-- Helper: a code returned by make_code passes the collision probe. -/
theorem make_code_free {links : List Link} {cands : List String} {code : String}
    (h : make_code links cands = some code) : codeFree links code = true := by
  induction cands with
  | nil => simp [make_code] at h
  | cons a rest ih =>
    by_cases ha : codeFree links a = true
    · simp [make_code, ha] at h
      rw [← h]
      exact ha
    · simp [make_code, ha] at h
      exact ih h

/-- Helper: a code returned by make_code comes from the candidate
stream. -/
theorem make_code_mem {links : List Link} {cands : List String} {code : String}
    (h : make_code links cands = some code) : code ∈ cands := by
  induction cands with
  | nil => simp [make_code] at h
  | cons a rest ih =>
    by_cases ha : codeFree links a = true
    · simp [make_code, ha] at h
      simp [h]
    · simp [make_code, ha] at h
      exact List.mem_cons_of_mem a (ih h)

/-- Helper: make_code succeeds as soon as some candidate is free. -/
theorem make_code_some {links : List Link} {cands : List String}
    (h : ∃ cd ∈ cands, codeFree links cd = true) :
    ∃ code, make_code links cands = some code := by
  induction cands with
  | nil => simp at h
  | cons a rest ih =>
    by_cases ha : codeFree links a = true
    · exact ⟨a, by simp [make_code, ha]⟩
    · obtain ⟨cd, hm, hf⟩ := h
      rcases List.mem_cons.mp hm with rfl | hm2
      · exact absurd hf ha
      · obtain ⟨code, hmc⟩ := ih ⟨cd, hm2, hf⟩
        exact ⟨code, by simpa [make_code, ha] using hmc⟩

/-- Helper: a free code is not among the stored short codes. -/
theorem codeFree_not_mem {links : List Link} {code : String}
    (h : codeFree links code = true) : code ∉ links.map Link.short_code := by
  unfold codeFree at h
  rw [List.all_eq_true] at h
  intro hmem
  obtain ⟨l, hl, heq⟩ := List.mem_map.mp hmem
  have hb := h l hl
  rw [bne_iff_ne] at hb
  exact hb heq

/-- Helper: on a hit, go appends exactly one clicks row, whose fields are
computed from the request exactly as the handler does. -/
theorem go_clicks_append (db : DB) (code : String) (req : Req) (now : String)
    (l : Link) (h : findLink db code = some l) :
    (go db code req now).1.clicks = db.clicks ++
      [⟨code, now,
        pyOr (req.x_forwarded_for.getD "") (pyOr (req.client_host.getD "") ""),
        req.user_agent.getD "",
        classify_device (req.user_agent.getD ""), none, none⟩] := by
  simp [go, h]

/-- Claim C1: for an owner whose effective plan is not pro, a create_link
call at or above the FREE_LIMIT cap fails with QuotaExceeded and inserts
no links row; a call below the cap (with the allocator able to find a free
candidate) succeeds and appends exactly the one new row. -/
theorem create_link_quota (db : DB) (tok url now : String) (cands : List String) :
    (effectivePlan db ("tok:" ++ tok) ≠ "pro" →
      FREE_LIMIT ≤ countLinks db ("tok:" ++ tok) →
      (create_link db (some tok) url cands now).2 = Except.error HErr.QuotaExceeded ∧
      (create_link db (some tok) url cands now).1.links = db.links) ∧
    (countLinks db ("tok:" ++ tok) < FREE_LIMIT →
      (∃ cd ∈ cands, codeFree db.links cd = true) →
      ∃ l, (create_link db (some tok) url cands now).2 = Except.ok l ∧
        (create_link db (some tok) url cands now).1.links = db.links ++ [l]) := by
  constructor
  · intro hplan hcount
    rw [create_link_eq]
    rw [if_pos ⟨hplan, hcount⟩]
    exact ⟨rfl, ensure_owner_links db _ now⟩
  · intro hcount hfree
    rw [create_link_eq]
    rw [if_neg (fun hc => absurd hc.2 (Nat.not_le.mpr hcount))]
    obtain ⟨code, hmc⟩ := make_code_some hfree
    rw [hmc]
    exact ⟨⟨url, code, now, "tok:" ++ tok⟩, rfl, by rw [ensure_owner_links]⟩

/-- Witness for C1 on scenario A: the three creations of owner token o1 on
the free plan succeed; before the fourth the plan is still not pro and the
count has reached the cap, and the fourth call fails with QuotaExceeded by
the theorem. -/
theorem create_link_quota_witness :
    stepA1.2 = Except.ok ⟨"https://a.example/1", "aaaa1", "t1", "tok:o1"⟩ ∧
    stepA2.2 = Except.ok ⟨"https://a.example/2", "aaaa2", "t2", "tok:o1"⟩ ∧
    stepA3.2 = Except.ok ⟨"https://a.example/3", "aaaa3", "t3", "tok:o1"⟩ ∧
    effectivePlan stepA3.1 "tok:o1" ≠ "pro" ∧
    FREE_LIMIT ≤ countLinks stepA3.1 "tok:o1" ∧
    stepA4.2 = Except.error HErr.QuotaExceeded := by
  refine ⟨by decide, by decide, by decide, by decide, by decide, ?_⟩
  exact ((create_link_quota stepA3.1 "o1" "https://a.example/4" "t4" ["aaaa4"]).1
    (by decide) (by decide)).1

/-- Claim C2: make_code only returns a CODE_LEN-character alphanumeric
code that collides with no stored short code (candidate validity reflects
the random draw over ALPHABET), and a successful create_link preserves
global uniqueness of the stored short codes. -/
theorem make_code_spec :
    (∀ (links : List Link) (cands : List String) (code : String),
      (∀ cd ∈ cands, cd.length = CODE_LEN ∧ cd.toList.all inAlphabet = true) →
      make_code links cands = some code →
      code.length = CODE_LEN ∧ code.toList.all inAlphabet = true ∧
        codeFree links code = true) ∧
    (∀ (db : DB) (tok url now : String) (cands : List String) (l : Link),
      (create_link db (some tok) url cands now).2 = Except.ok l →
      (db.links.map Link.short_code).Nodup →
      ((create_link db (some tok) url cands now).1.links.map
        Link.short_code).Nodup) := by
  constructor
  · intro links cands code hval hmc
    obtain ⟨h1, h2⟩ := hval code (make_code_mem hmc)
    exact ⟨h1, h2, make_code_free hmc⟩
  · intro db tok url now cands l hok hnd
    rw [create_link_eq] at hok ⊢
    by_cases hc : effectivePlan db ("tok:" ++ tok) ≠ "pro" ∧
        FREE_LIMIT ≤ countLinks db ("tok:" ++ tok)
    · rw [if_pos hc] at hok
      exact absurd hok (by simp)
    · rw [if_neg hc] at hok ⊢
      cases hmc : make_code db.links cands with
      | none =>
        rw [hmc] at hok
        exact absurd hok (by simp)
      | some code =>
        simp only [List.map_append, List.map_cons, List.map_nil,
          ensure_owner_links]
        rw [List.nodup_append]
        refine ⟨hnd, List.nodup_singleton _, ?_⟩
        intro a ha hb
        rw [List.mem_singleton] at hb
        subst hb
        exact codeFree_not_mem (make_code_free hmc) ha

/-- Witness for C2: on the one-link state the allocator skips the colliding
candidate abc01 and returns the free, valid candidate Zx9Qa, and a concrete
successful creation keeps the short codes pairwise distinct. -/
theorem make_code_spec_witness :
    ("Zx9Qa".length = CODE_LEN ∧ "Zx9Qa".toList.all inAlphabet = true ∧
      codeFree dbOneLink.links "Zx9Qa" = true) ∧
    ((create_link dbOneLink (some "o1") "https://a.example/x" ["bbbb1"] "t9").1.links.map
        Link.short_code).Nodup := by
  constructor
  · exact make_code_spec.1 dbOneLink.links ["abc01", "Zx9Qa"] "Zx9Qa"
      (by decide) (by decide)
  · exact make_code_spec.2 dbOneLink "o1" "https://a.example/x" "t9" ["bbbb1"]
      ⟨"https://a.example/x", "bbbb1", "t9", "tok:o1"⟩ (by decide) (by decide)

/-- Claim C3 counterexample: classify_device has no bot branch and no
unknown branch; the empty (absent) user agent classifies as desktop, not
unknown, and a crawler user agent classifies as desktop, not bot. -/
theorem classify_device_counterexample :
    classify_device "" = "desktop" ∧ classify_device "" ≠ "unknown" ∧
    classify_device "Googlebot/2.1" = "desktop" ∧
    classify_device "Googlebot/2.1" ≠ "bot" := by decide

/-- Claim C3 amended: classify_device checks the tablet signatures first,
then the mobile signatures, then defaults to desktop; its result is always
one of tablet, mobile, desktop (never bot, never unknown), it never
throws (it is total), and the absent or malformed user agent falls through
to desktop. -/
theorem classify_device_amended (ua : String) :
    ((∃ t ∈ TABLET_SIGS, strIn t (strLower ua) = true) →
      classify_device ua = "tablet") ∧
    ((¬ ∃ t ∈ TABLET_SIGS, strIn t (strLower ua) = true) →
      (∃ m ∈ MOBILE_SIGS, strIn m (strLower ua) = true) →
      classify_device ua = "mobile") ∧
    ((¬ ∃ t ∈ TABLET_SIGS, strIn t (strLower ua) = true) →
      (¬ ∃ m ∈ MOBILE_SIGS, strIn m (strLower ua) = true) →
      classify_device ua = "desktop") ∧
    (classify_device ua = "tablet" ∨ classify_device ua = "mobile" ∨
      classify_device ua = "desktop") := by
  have htab : (TABLET_SIGS.any fun t => strIn t (strLower ua)) = true ↔
      ∃ t ∈ TABLET_SIGS, strIn t (strLower ua) = true := by
    simp [List.any_eq_true]
  have hmob : (MOBILE_SIGS.any fun m => strIn m (strLower ua)) = true ↔
      ∃ m ∈ MOBILE_SIGS, strIn m (strLower ua) = true := by
    simp [List.any_eq_true]
  refine ⟨?_, ?_, ?_, ?_⟩
  · intro h
    simp [classify_device, htab.mpr h]
  · intro hn h
    have ht : (TABLET_SIGS.any fun t => strIn t (strLower ua)) = false :=
      Bool.eq_false_iff.mpr (fun c => hn (htab.mp c))
    simp [classify_device, ht, hmob.mpr h]
  · intro hn hm
    have ht : (TABLET_SIGS.any fun t => strIn t (strLower ua)) = false :=
      Bool.eq_false_iff.mpr (fun c => hn (htab.mp c))
    have hm2 : (MOBILE_SIGS.any fun m => strIn m (strLower ua)) = false :=
      Bool.eq_false_iff.mpr (fun c => hm (hmob.mp c))
    simp [classify_device, ht, hm2]
  · by_cases h1 : (TABLET_SIGS.any fun t => strIn t (strLower ua)) = true
    · exact Or.inl (by simp [classify_device, h1])
    · by_cases h2 : (MOBILE_SIGS.any fun m => strIn m (strLower ua)) = true
      · exact Or.inr (Or.inl
          (by simp [classify_device, Bool.eq_false_iff.mpr h1, h2]))
      · exact Or.inr (Or.inr
          (by simp [classify_device, Bool.eq_false_iff.mpr h1,
            Bool.eq_false_iff.mpr h2]))

/-- Witness for C3 amended at one input per branch. -/
theorem classify_device_amended_witness :
    classify_device "iPad Safari" = "tablet" ∧
    classify_device "Mozilla/5.0 iPhone Safari" = "mobile" ∧
    classify_device "Mozilla/5.0 Windows Chrome" = "desktop" :=
  ⟨(classify_device_amended "iPad Safari").1 (by decide),
   (classify_device_amended "Mozilla/5.0 iPhone Safari").2.1 (by decide) (by decide),
   (classify_device_amended "Mozilla/5.0 Windows Chrome").2.2.1 (by decide) (by decide)⟩

/-- Claim C4 (scenario C): five redirects against code abc01 with two
iPhone agents, one Android Mobile agent and two desktop-style agents all
succeed, and the stats for that code then report total 5, mobile 3,
desktop 2. -/
theorem scenarioC_stats :
    goC4_1.2 = Except.ok "https://listing.example/home" ∧
    goC4_2.2 = Except.ok "https://listing.example/home" ∧
    goC4_3.2 = Except.ok "https://listing.example/home" ∧
    goC4_4.2 = Except.ok "https://listing.example/home" ∧
    goC4_5.2 = Except.ok "https://listing.example/home" ∧
    (stats_bundle goC4_5.1 "abc01").total = 5 ∧
    (stats_bundle goC4_5.1 "abc01").mobile = 3 ∧
    (stats_bundle goC4_5.1 "abc01").desktop = 2 := by decide

/-- Claim C5: a redirect against a code absent from the links table yields
NotFound and leaves the whole state, in particular the clicks table,
unchanged. -/
theorem go_notFound (db : DB) (code : String) (req : Req) (now : String)
    (h : findLink db code = none) :
    go db code req now = (db, Except.error HErr.NotFound) ∧
    (go db code req now).1.clicks = db.clicks := by
  have hg : go db code req now = (db, Except.error HErr.NotFound) := by
    simp [go, h]
  exact ⟨hg, by rw [hg]⟩

/-- Witness for C5 against the unregistered code ZZZZZ. -/
theorem go_notFound_witness :
    findLink dbOneLink "ZZZZZ" = none ∧
    go dbOneLink "ZZZZZ" (reqOf "Mozilla/5.0 Windows Chrome") "t9" =
      (dbOneLink, Except.error HErr.NotFound) :=
  ⟨by decide,
   (go_notFound dbOneLink "ZZZZZ" (reqOf "Mozilla/5.0 Windows Chrome") "t9"
      (by decide)).1⟩

/-- Claim C6 counterexample: against the unregistered code ZZZZZ the CSV
endpoint does not fail with NotFound; it returns a CSV document consisting
of the header line. -/
theorem report_csv_counterexample :
    report_csv emptyDB "ZZZZZ" = Except.ok (csvHeaderLine ++ "\n") ∧
    report_csv emptyDB "ZZZZZ" ≠ Except.error HErr.NotFound := by decide

/-- Claim C6 amended: report_csv performs no link lookup and never fails;
for a code with no stored clicks (as for any code never registered) the
response is the header line alone. -/
theorem report_csv_amended (db : DB) (code : String) :
    (∀ e, report_csv db code ≠ Except.error e) ∧
    (db.clicks.filter (fun cl => cl.short_code == code) = [] →
      report_csv db code = Except.ok (csvHeaderLine ++ "\n")) := by
  constructor
  · intro e hcontra
    simp [report_csv] at hcontra
  · intro h
    unfold report_csv clicks_for
    rw [h]
    rfl

/-- Witness for C6 amended at the unregistered code ZZZZZ. -/
theorem report_csv_amended_witness :
    emptyDB.clicks.filter (fun cl => cl.short_code == "ZZZZZ") = [] ∧
    report_csv emptyDB "ZZZZZ" = Except.ok (csvHeaderLine ++ "\n") :=
  ⟨by decide, (report_csv_amended emptyDB "ZZZZZ").2 (by decide)⟩

/-- Claim C7 counterexample: with a two-address forwarded-for chain the
recorded address is the whole header value, not its first address (the
compiled _ip_re first-address regex is never applied), so the claim fails
at this input. -/
theorem click_ip_counterexample :
    ((go dbOneLink "abc01" reqC7 "t1").1.clicks.map Click.ip) =
      ["1.2.3.4, 5.6.7.8"] ∧
    "1.2.3.4, 5.6.7.8" ≠ "1.2.3.4" := by decide

/-- Claim C7 amended: the recorded address is the entire x-forwarded-for
header value when that header is present and non-empty, else the direct
peer address when present and non-empty, else the empty string; there is
no real-IP header fallback, no unknown sentinel, and no splitting of the
comma-separated chain. -/
theorem click_ip_amended (db : DB) (code : String) (req : Req) (now : String)
    (l : Link) (h : findLink db code = some l) :
    (go db code req now).1.clicks = db.clicks ++
      [⟨code, now,
        pyOr (req.x_forwarded_for.getD "") (pyOr (req.client_host.getD "") ""),
        req.user_agent.getD "",
        classify_device (req.user_agent.getD ""), none, none⟩] :=
  go_clicks_append db code req now l h

/-- Witness for C7 amended on the concrete chained header. -/
theorem click_ip_amended_witness :
    findLink dbOneLink "abc01" =
      some ⟨"https://listing.example/home", "abc01", "t0", "tok:o1"⟩ ∧
    (go dbOneLink "abc01" reqC7 "t1").1.clicks =
      dbOneLink.clicks ++
        [⟨"abc01", "t1", "1.2.3.4, 5.6.7.8", "Mozilla/5.0 Windows Chrome",
          "desktop", none, none⟩] := by
  refine ⟨by decide, ?_⟩
  have h := click_ip_amended dbOneLink "abc01" reqC7 "t1"
    ⟨"https://listing.example/home", "abc01", "t0", "tok:o1"⟩ (by decide)
  rw [h]
  decide

set_option maxRecDepth 8000 in
/-- Claim C8 counterexample: a 513-character user agent is stored at its
full 513-character length, exceeding the 512-character bound the
specification names; go performs no truncation. -/
theorem click_ua_counterexample :
    ((go dbOneLink "abc01" reqC8 "t1").1.clicks.map
      (fun cl => cl.user_agent.length)) = [513] ∧ ¬(513 ≤ 512) := by decide

/-- Claim C8 amended: on every successful redirect the appended clicks row
stores the incoming user-agent header value unchanged, so the recorded
length equals the incoming length with no bound. -/
theorem click_ua_amended (db : DB) (code : String) (req : Req) (now : String)
    (l : Link) (h : findLink db code = some l) :
    ∃ cl, (go db code req now).1.clicks = db.clicks ++ [cl] ∧
      cl.user_agent = req.user_agent.getD "" ∧
      cl.user_agent.length = (req.user_agent.getD "").length :=
  ⟨⟨code, now,
      pyOr (req.x_forwarded_for.getD "") (pyOr (req.client_host.getD "") ""),
      req.user_agent.getD "",
      classify_device (req.user_agent.getD ""), none, none⟩,
   go_clicks_append db code req now l h, rfl, rfl⟩

set_option maxRecDepth 8000 in
/-- Witness for C8 amended on the 513-character user agent. -/
theorem click_ua_amended_witness :
    findLink dbOneLink "abc01" =
      some ⟨"https://listing.example/home", "abc01", "t0", "tok:o1"⟩ ∧
    ∃ cl, (go dbOneLink "abc01" reqC8 "t1").1.clicks =
        dbOneLink.clicks ++ [cl] ∧
      cl.user_agent = reqC8.user_agent.getD "" ∧
      cl.user_agent.length = (reqC8.user_agent.getD "").length :=
  ⟨by decide,
   click_ua_amended dbOneLink "abc01" reqC8 "t1"
     ⟨"https://listing.example/home", "abc01", "t0", "tok:o1"⟩ (by decide)⟩

/-- Claim C9 counterexample: querying the plan of the absent owner o1 on
the empty state returns free but inserts an owners row as a side effect,
so the owners store does not stay unchanged. -/
theorem owner_plan_counterexample :
    (owner_plan emptyDB "o1" "t0").2 = "free" ∧
    (owner_plan emptyDB "o1" "t0").1.owners = [⟨"o1", "free", "t0"⟩] ∧
    (owner_plan emptyDB "o1" "t0").1.owners ≠ emptyDB.owners := by decide

/-- Claim C9 amended: for an absent owner key, owner_plan returns free
(not an error) but, through its ensure_owner call, appends a new owners
row with plan free; it is not read-only. -/
theorem owner_plan_amended (db : DB) (k now : String)
    (h : findOwner db k = none) :
    (owner_plan db k now).2 = "free" ∧
    (owner_plan db k now).1.owners = db.owners ++ [⟨k, "free", now⟩] := by
  constructor
  · rw [owner_plan_snd]
    unfold effectivePlan
    rw [h]
  · rw [owner_plan_fst]
    simp [ensure_owner, h]

/-- Witness for C9 amended on the empty state. -/
theorem owner_plan_amended_witness :
    findOwner emptyDB "o1" = none ∧
    (owner_plan emptyDB "o1" "t0").2 = "free" ∧
    (owner_plan emptyDB "o1" "t0").1.owners =
      emptyDB.owners ++ [⟨"o1", "free", "t0"⟩] :=
  ⟨by decide, owner_plan_amended emptyDB "o1" "t0" (by decide)⟩

/-- Claim C10: report_csv joins field values with bare commas and no
quoting, so for a stored click whose user_agent itself contains a comma
the emitted line has 7 comma-separated fields against the 6 columns of the
header line, and the full emitted document contains that malformed line. -/
theorem report_csv_unescaped :
    strIn "," clC10.user_agent = true ∧
    numFields csvHeaderLine = 6 ∧
    numFields (csv_row clC10) = 7 ∧
    6 < 7 ∧
    report_csv ⟨[], [], [clC10]⟩ "c1" =
      Except.ok (csvHeaderLine ++ "\n" ++ csv_row clC10 ++ "\n") := by decide

end SmartLinks
